import Mathlib

/-!
Verification of the ComicsTools batch-image pipeline (convert_to_jpg.py,
extract_images.py, images_to_pdf.py, resize_images.py).

The four scripts are shallowly embedded: pure decision logic (mode
normalization, fast-path tests, precondition checks, sequence numbering,
ordering) is translated into executable Lean definitions, and filesystem or
library effects (PIL decode results, directory listings, zip entry lists)
are passed in as explicit data.  Python strings are modelled through their
character sequences: comparison is code-point lexicographic, exactly
Python's `<=` on `str`, and lower-casing maps each character (the suffixes
compared here are ASCII).
-/

/-- Python string comparison on the underlying character sequences:
code-point lexicographic order, as `<=` on Python `str`. -/
def pyStrLeAux : List Char → List Char → Bool
  | [], _ => true
  | _ :: _, [] => false
  | a :: as, b :: bs =>
    if a < b then true
    else if b < a then false
    else pyStrLeAux as bs

/-- `a <= b` for Python strings. -/
def pyStrLe (a b : String) : Prop := pyStrLeAux a.data b.data = true

instance (a b : String) : Decidable (pyStrLe a b) := by
  unfold pyStrLe; infer_instance

/-- Python `str.lower()`, restricted to the per-character mapping (the
extensions and suffixes compared by these scripts are ASCII). -/
def pyLower (s : String) : String := String.mk (s.data.map Char.toLower)

theorem pyStrLeAux_total : ∀ x y : List Char,
    pyStrLeAux x y = true ∨ pyStrLeAux y x = true := by
  intro x
  induction x with
  | nil => intro y; left; rfl
  | cons a as ih =>
    intro y
    cases y with
    | nil => right; rfl
    | cons b bs =>
      by_cases hab : a < b
      · left; simp [pyStrLeAux, hab]
      · by_cases hba : b < a
        · right; simp [pyStrLeAux, hba, asymm hba]
        · rcases ih bs with h | h
          · left; simp [pyStrLeAux, hab, hba, h]
          · right; simp [pyStrLeAux, hab, hba, h]

theorem pyStrLeAux_trans : ∀ x y z : List Char,
    pyStrLeAux x y = true → pyStrLeAux y z = true → pyStrLeAux x z = true := by
  intro x
  induction x with
  | nil => intro y z _ _; rfl
  | cons a as ih =>
    intro y z hxy hyz
    cases y with
    | nil => simp [pyStrLeAux] at hxy
    | cons b bs =>
      cases z with
      | nil => simp [pyStrLeAux] at hyz
      | cons c cs =>
        by_cases hab : a < b
        · by_cases hbc : b < c
          · simp [pyStrLeAux, lt_trans hab hbc]
          · by_cases hcb : c < b
            · simp [pyStrLeAux, hbc, hcb] at hyz
            · have hbceq : b = c := le_antisymm (not_lt.mp hcb) (not_lt.mp hbc)
              simp [pyStrLeAux, hbceq ▸ hab]
        · by_cases hba : b < a
          · simp [pyStrLeAux, hab, hba] at hxy
          · have habeq : a = b := le_antisymm (not_lt.mp hba) (not_lt.mp hab)
            subst habeq
            by_cases hac : a < c
            · simp [pyStrLeAux, hac]
            · by_cases hca : c < a
              · simp [pyStrLeAux, hac, hca] at hyz
              · simp only [pyStrLeAux, hab, hba, if_neg hab, if_neg hba,
                  if_neg hac, if_neg hca] at hxy hyz ⊢
                exact ih bs cs hxy hyz

/-! ## Data model -/

/-- A PIL image as observed by these scripts: `img.format` (source codec tag,
e.g. "JPEG", "PNG"), `img.mode` (color mode string, e.g. "RGB", "RGBA", "P",
"L", "CMYK"), and `img.size`. -/
structure Img where
  format : String
  mode : String
  width : Nat
  height : Nat
deriving DecidableEq, Repr

/-- One directory entry as the locators observe it: its full path string, its
final component `name`, its extension `suffix` (as `pathlib.Path.suffix`,
including the dot), whether it is a regular file, and the result of
`PIL.Image.open` on it (`none` models a decode failure). -/
structure FileEntry where
  path : String
  name : String
  suffix : String
  isFile : Bool
  decoded : Option Img
deriving DecidableEq, Repr

/-- One zip-archive entry of an EPUB: its entry name and the extension of the
name's final component (`Path(name).suffix`). -/
structure ZipEntry where
  name : String
  suffix : String
deriving DecidableEq, Repr

/-- What the precondition checks of the tools observe about the argument
path: whether it exists, whether it is a directory, and its extension. -/
structure PathInfo where
  existsOnDisk : Bool
  isDir : Bool
  suffix : String
deriving DecidableEq, Repr

/-- `IMAGE_EXTENSIONS`, identical in all four scripts. -/
def IMAGE_EXTENSIONS : List String :=
  [".jpg", ".jpeg", ".png", ".gif", ".webp", ".bmp", ".tiff"]

/-! ## Normalizer -/

/-- The mode-normalization snippet shared verbatim by convert_to_jpg.py
(lines 33-36), resize_images.py (lines 37-40) and images_to_pdf.py (lines
51-54): `if img.mode in ("RGBA", "P"): img = img.convert("RGB") elif
img.mode != "RGB": img = img.convert("RGB")`.  Returns the mode the image
has when it is subsequently saved. -/
def normalize_mode (m : String) : String :=
  if m = "RGBA" ∨ m = "P" then "RGB"
  else if m ≠ "RGB" then "RGB"
  else m

/-- How `save_image_as_jpg` (extract_images.py lines 21-34) writes its
output: either the original byte payload verbatim, or a JPEG encode of the
image in the given mode. -/
inductive SaveAction where
  | passThrough
  | encodeJpeg (mode : String)
deriving DecidableEq, Repr

/-- `save_image_as_jpg`, extract_images.py lines 21-34: if the decoded image
reports format "JPEG" and its mode is not RGBA and not P, the original bytes
are written unchanged; otherwise RGBA and P are converted to RGB (and no
other mode is touched) and the image is encoded as JPEG at quality 85. -/
def save_image_as_jpg (img : Img) : SaveAction :=
  if img.format = "JPEG" ∧ ¬(img.mode = "RGBA" ∨ img.mode = "P") then
    SaveAction.passThrough
  else
    SaveAction.encodeJpeg (if img.mode = "RGBA" ∨ img.mode = "P" then "RGB" else img.mode)

/-- What one call of `convert_image_to_jpg` (convert_to_jpg.py lines 16-48)
does to its file. -/
inductive ConvertAction where
  | skipAlreadyJpg
  | reencoded (mode : String)
  | failed
deriving DecidableEq, Repr

/-- `convert_image_to_jpg`, convert_to_jpg.py lines 16-48: if the lower-cased
suffix is ".jpg" or ".jpeg" the function returns True at once, without
opening the file; otherwise it opens the file (failure is caught and returns
False), normalizes the mode, saves as JPEG quality 85 and unlinks the
original.  Returns the action taken and the boolean the function returns. -/
def convert_image_to_jpg (f : FileEntry) : ConvertAction × Bool :=
  if pyLower f.suffix = ".jpg" ∨ pyLower f.suffix = ".jpeg" then
    (ConvertAction.skipAlreadyJpg, true)
  else
    match f.decoded with
    | none => (ConvertAction.failed, false)
    | some img => (ConvertAction.reencoded (normalize_mode img.mode), true)

/-! ## Resize -/

/-- resize_images.py lines 30-31: `ratio = target_width / original_width;
target_height = int(original_height * ratio)`, the float expression taken in
exact rational arithmetic; Python `int` truncates, which on this nonnegative
value is the floor. -/
def resize_target_height (original_width original_height target_width : Nat) : Nat :=
  ⌊(original_height : ℚ) * ((target_width : ℚ) / (original_width : ℚ))⌋₊

/-- The pixel dimensions `(target_width, target_height)` passed to
`img.resize` in resize_images.py line 34. -/
def resize_output_size (original_width original_height target_width : Nat) : Nat × Nat :=
  (target_width, resize_target_height original_width original_height target_width)

/-- `resize_image`, resize_images.py lines 16-55: open the file (`none`
models the caught per-item failure), resample to the computed size, normalize
the mode, save as JPEG quality 85.  Returns the width, height and mode of
the saved image, or `none` on failure. -/
def resize_image (f : FileEntry) (target_width : Nat) : Option (Nat × Nat × String) :=
  match f.decoded with
  | none => none
  | some img =>
      some (target_width, resize_target_height img.width img.height target_width,
        normalize_mode img.mode)

/-! ## Prechecks and directory drivers -/

/-- Result of a tool's precondition checks: `fatalExit` models
`sys.exit(1)`. -/
inductive CheckResult where
  | fatalExit
  | proceed
deriving DecidableEq, Repr

/-- The argument checks shared verbatim by `convert_images_in_directory`
(convert_to_jpg.py lines 54-60), `resize_images_in_directory`
(resize_images.py lines 61-67) and `images_to_pdf` (images_to_pdf.py lines
19-25): exit(1) if the path does not exist, exit(1) if it is not a
directory. -/
def directory_precheck (p : PathInfo) : CheckResult :=
  if ¬p.existsOnDisk then CheckResult.fatalExit
  else if ¬p.isDir then CheckResult.fatalExit
  else CheckResult.proceed

/-- The argument checks of `extract_images`, extract_images.py lines
160-170: exit(1) if the path does not exist, exit(1) if its lower-cased
suffix is not ".pdf", ".epub" or ".mobi".  The path's kind (file versus
directory) is never inspected. -/
def extract_precheck (p : PathInfo) : CheckResult :=
  if ¬p.existsOnDisk then CheckResult.fatalExit
  else if ¬(pyLower p.suffix = ".pdf" ∨ pyLower p.suffix = ".epub" ∨
      pyLower p.suffix = ".mobi") then CheckResult.fatalExit
  else CheckResult.proceed

/-- How far a run of `extract_images` (extract_images.py lines 158-187) gets
past its precondition checks: `started` means the output folder is created
and a format adapter is invoked. -/
inductive ExtractStart where
  | fatalExit
  | started
deriving DecidableEq, Repr

/-- The precondition phase of `extract_images`, extract_images.py lines
158-175. -/
def extract_images (p : PathInfo) : ExtractStart :=
  match extract_precheck p with
  | CheckResult.fatalExit => ExtractStart.fatalExit
  | CheckResult.proceed => ExtractStart.started

/-- The image locator shared by convert_to_jpg.py (lines 63-66) and
images_to_pdf.py (lines 28-31) over `folder.iterdir()`, and by
resize_images.py (lines 70-73) over `folder.rglob("*")`: keep regular files
whose lower-cased suffix is a recognized image extension. -/
def locate_images (entries : List FileEntry) : List FileEntry :=
  entries.filter fun f => f.isFile && IMAGE_EXTENSIONS.contains (pyLower f.suffix)

/-- Sort key `lambda p: p.name` (convert_to_jpg.py line 73, images_to_pdf.py
line 38, extract_images.py line 133), as a relation for Python's stable
`list.sort`. -/
def leByName (a b : FileEntry) : Prop := pyStrLe a.name b.name

instance (a b : FileEntry) : Decidable (leByName a b) := by
  unfold leByName; infer_instance

/-- Sort key `lambda p: str(p)` (resize_images.py line 80). -/
def leByPath (a b : FileEntry) : Prop := pyStrLe a.path b.path

instance (a b : FileEntry) : Decidable (leByPath a b) := by
  unfold leByPath; infer_instance

/-- Outcome of one of the three directory drivers.  `processed` carries the
work list in the order in which the per-item loop consumes it;
`normalNoImages` models printing "No images found ..." and returning
normally (exit status 0); `fatalExit` models `sys.exit(1)`. -/
inductive RunOutcome where
  | fatalExit
  | normalNoImages
  | processed (files : List FileEntry)
deriving DecidableEq, Repr

/-- `convert_images_in_directory`, convert_to_jpg.py lines 51-82: checks,
locate, empty-result early return, stable sort by filename, per-item loop. -/
def convert_images_in_directory (p : PathInfo) (entries : List FileEntry) : RunOutcome :=
  match directory_precheck p with
  | CheckResult.fatalExit => RunOutcome.fatalExit
  | CheckResult.proceed =>
      if (locate_images entries).isEmpty then RunOutcome.normalNoImages
      else RunOutcome.processed ((locate_images entries).insertionSort leByName)

/-- `resize_images_in_directory`, resize_images.py lines 58-90: identical
shape, recursive listing, stable sort by full path string. -/
def resize_images_in_directory (p : PathInfo) (entries : List FileEntry) : RunOutcome :=
  match directory_precheck p with
  | CheckResult.fatalExit => RunOutcome.fatalExit
  | CheckResult.proceed =>
      if (locate_images entries).isEmpty then RunOutcome.normalNoImages
      else RunOutcome.processed ((locate_images entries).insertionSort leByPath)

/-- `images_to_pdf`, images_to_pdf.py lines 16-81: same checks and locator,
but an empty result is `sys.exit(1)` (a PDF needs at least one page); the
loaded images are then assembled into one PDF in sorted filename order. -/
def images_to_pdf (p : PathInfo) (entries : List FileEntry) : RunOutcome :=
  match directory_precheck p with
  | CheckResult.fatalExit => RunOutcome.fatalExit
  | CheckResult.proceed =>
      if (locate_images entries).isEmpty then RunOutcome.fatalExit
      else RunOutcome.processed ((locate_images entries).insertionSort leByName)

/-! ## Extraction -/

/-- `f"{n:04d}"`: the decimal digits of `n` left-padded with zeros to at
least four characters. -/
def pad4 (n : Nat) : String :=
  let s := toString n
  String.mk (List.replicate (4 - s.length) '0') ++ s

/-- The per-item fate of one located work item inside an extraction loop:
whether fetching its raw payload succeeds (PDF `doc.extract_image`, EPUB
`epub.read`, MOBI `Path.read_bytes`) and whether `save_image_as_jpg` on it
succeeds.  Either failure raises and is caught by the per-item handler. -/
structure ExtractItem where
  payloadOk : Bool
  writeOk : Bool
deriving DecidableEq, Repr

/-- The sequential numbering loop shared verbatim by
`extract_images_from_pdf` (extract_images.py lines 48-63),
`extract_images_from_epub` (lines 85-97) and `extract_images_from_mobi`
(lines 137-149): for each item, fetch the payload (failure skips the item
with no counter change), then `image_count += 1`, then build the filename
from the counter and attempt the write (failure is caught after the
increment already happened).  Returns the final counter and the list of
filenames actually written, in order. -/
def extract_loop : List ExtractItem → Nat → Nat × List String
  | [], count => (count, [])
  | item :: rest, count =>
      if item.payloadOk then
        if item.writeOk then
          let r := extract_loop rest (count + 1)
          (r.1, (pad4 (count + 1) ++ ".jpg") :: r.2)
        else extract_loop rest (count + 1)
      else extract_loop rest count

/-- `extract_images_from_pdf`, extract_images.py lines 37-66: the PDF's
image references in page order, each with its per-item outcome, fed through
the numbering loop starting at 0. -/
def extract_images_from_pdf (items : List ExtractItem) : Nat × List String :=
  extract_loop items 0

/-- extract_images.py lines 75-81: the EPUB archive entries whose suffix
(lower-cased) is a recognized image extension, sorted lexicographically by
entry name with Python's stable `list.sort`. -/
def epub_image_files (names : List ZipEntry) : List String :=
  (((names.filter fun e => IMAGE_EXTENSIONS.contains (pyLower e.suffix)).map
    ZipEntry.name).insertionSort pyStrLe)

/-- `extract_images_from_epub`, extract_images.py lines 69-99: the sorted
entry names, each mapped to its per-item outcome, fed through the numbering
loop starting at 0. -/
def extract_images_from_epub (names : List ZipEntry) (outcome : String → ExtractItem) :
    Nat × List String :=
  extract_loop ((epub_image_files names).map outcome) 0

/-- extract_images.py lines 128-133: the files of the chosen MOBI search
directory gathered by `rglob(f"*{ext}")` for each recognized extension
(a case-sensitive match on the suffix, unlike the other locators), sorted by
filename with Python's stable `list.sort`. -/
def mobi_image_files (files : List FileEntry) : List FileEntry :=
  (files.filter fun f => IMAGE_EXTENSIONS.contains f.suffix).insertionSort leByName

/-- The state the MOBI adapter threads through its try/finally: whether the
temporary unpack directory produced by `mobi.extract` still exists. -/
structure MobiFS where
  tempdirRemoved : Bool
deriving DecidableEq, Repr

/-- `shutil.rmtree(tempdir_path, ignore_errors=True)`, extract_images.py
line 152: removes the temporary directory and, with errors ignored, never
raises. -/
def rmtree (s : MobiFS) : MobiFS := { s with tempdirRemoved := true }

/-- The `try ... finally` of `extract_images_from_mobi`, extract_images.py
lines 110-153: run the body (which may finish normally with a value or
raise), then run the cleanup on whichever state the body left behind; a
raised error propagates after the cleanup. -/
def mobi_try_finally {α : Type} (body : MobiFS → Except String α × MobiFS)
    (s : MobiFS) : Except String α × MobiFS :=
  let r := body s
  (r.1, rmtree r.2)

/-- `extract_images_from_mobi`, extract_images.py lines 102-155: after
`mobi.extract` has produced the temporary directory, the try-block selects
the search directory, gathers and sorts the image files and runs the
numbering loop (whose per-item errors are caught inside it); the finally
removes the temporary directory. -/
def extract_images_from_mobi (files : List FileEntry)
    (outcome : FileEntry → ExtractItem) (s : MobiFS) :
    Except String (Nat × List String) × MobiFS :=
  mobi_try_finally
    (fun s0 => (Except.ok (extract_loop ((mobi_image_files files).map outcome) 0), s0)) s

/-- The per-file loop of `convert_images_in_directory` (convert_to_jpg.py
lines 77-80): the action taken and flag returned for each located file, in
processing order. -/
def convert_run_actions (entries : List FileEntry) : List (ConvertAction × Bool) :=
  ((locate_images entries).insertionSort leByName).map convert_image_to_jpg

/-! ## Helper lemmas -/

theorem pyStrLe_trans {a b c : String} (h1 : pyStrLe a b) (h2 : pyStrLe b c) :
    pyStrLe a c :=
  pyStrLeAux_trans _ _ _ h1 h2

theorem pyStrLe_total (a b : String) : pyStrLe a b ∨ pyStrLe b a :=
  pyStrLeAux_total _ _

theorem sorted_insertionSort_leByName (l : List FileEntry) :
    (l.insertionSort leByName).Sorted leByName := by
  haveI : IsTotal FileEntry leByName := ⟨fun a b => pyStrLe_total _ _⟩
  haveI : IsTrans FileEntry leByName := ⟨fun _ _ _ => pyStrLe_trans⟩
  exact List.sorted_insertionSort _ l

theorem sorted_insertionSort_leByPath (l : List FileEntry) :
    (l.insertionSort leByPath).Sorted leByPath := by
  haveI : IsTotal FileEntry leByPath := ⟨fun a b => pyStrLe_total _ _⟩
  haveI : IsTrans FileEntry leByPath := ⟨fun _ _ _ => pyStrLe_trans⟩
  exact List.sorted_insertionSort _ l

theorem sorted_insertionSort_pyStrLe (l : List String) :
    (l.insertionSort pyStrLe).Sorted pyStrLe := by
  haveI : IsTotal String pyStrLe := ⟨pyStrLe_total⟩
  haveI : IsTrans String pyStrLe := ⟨fun _ _ _ => pyStrLe_trans⟩
  exact List.sorted_insertionSort _ l

/-- A list sorted with respect to a key order, that is a permutation of a
list with pairwise-distinct keys, has strictly increasing keys. -/
theorem pairwise_strict_of_distinct {α κ : Type} {le : α → α → Prop} (key : α → κ)
    {l src : List α} (hs : l.Pairwise le) (hp : l.Perm src)
    (hd : src.Pairwise fun a b => key a ≠ key b) :
    l.Pairwise fun a b => le a b ∧ key a ≠ key b := by
  have hd' : l.Pairwise (fun a b => key a ≠ key b) :=
    (hp.pairwise_iff fun h => Ne.symm h).mpr hd
  exact hs.and hd'

theorem convert_processed_eq {p : PathInfo} {entries : List FileEntry}
    {l : List FileEntry}
    (h : convert_images_in_directory p entries = RunOutcome.processed l) :
    l = (locate_images entries).insertionSort leByName := by
  unfold convert_images_in_directory at h
  cases hd : directory_precheck p <;> rw [hd] at h
  · exact absurd h (by simp)
  · by_cases he : (locate_images entries).isEmpty <;> simp [he] at h
    exact h.symm

theorem images_to_pdf_processed_eq {p : PathInfo} {entries : List FileEntry}
    {l : List FileEntry}
    (h : images_to_pdf p entries = RunOutcome.processed l) :
    l = (locate_images entries).insertionSort leByName := by
  unfold images_to_pdf at h
  cases hd : directory_precheck p <;> rw [hd] at h
  · exact absurd h (by simp)
  · by_cases he : (locate_images entries).isEmpty <;> simp [he] at h
    exact h.symm

theorem resize_processed_eq {p : PathInfo} {entries : List FileEntry}
    {l : List FileEntry}
    (h : resize_images_in_directory p entries = RunOutcome.processed l) :
    l = (locate_images entries).insertionSort leByPath := by
  unfold resize_images_in_directory at h
  cases hd : directory_precheck p <;> rw [hd] at h
  · exact absurd h (by simp)
  · by_cases he : (locate_images entries).isEmpty <;> simp [he] at h
    exact h.symm

theorem mem_enumFrom_snd {α : Type} {q : Nat × α} :
    ∀ {l : List α} {n : Nat}, q ∈ l.enumFrom n → q.2 ∈ l := by
  intro l
  induction l with
  | nil => intro n h; simp [List.enumFrom] at h
  | cons a as ih =>
      intro n h
      rw [List.enumFrom_cons, List.mem_cons] at h
      rcases h with h | h
      · subst h; exact List.mem_cons_self _ _
      · exact List.mem_cons_of_mem _ (ih h)

theorem enumFrom_map_fst_comp {α β : Type} (g : Nat → β) (l : List α) (n : Nat) :
    (l.enumFrom n).map (fun q => g q.1) = (List.range' n l.length).map g := by
  have h1 : (fun q : Nat × α => g q.1) = g ∘ Prod.fst := rfl
  rw [h1, ← List.map_map, List.enumFrom_map_fst]

/-- The numbering loop, characterized: every item whose payload is obtained
consumes the next sequence number (its one-based rank among payload-obtained
items, offset by the starting counter), whether or not its write succeeds;
the filenames written are those of the items whose write also succeeds. -/
theorem extract_loop_eq (items : List ExtractItem) : ∀ c : Nat,
    extract_loop items c =
      (c + (items.filter fun it => it.payloadOk).length,
        (((items.filter fun it => it.payloadOk).enumFrom (c + 1)).filter
          fun q => q.2.writeOk).map fun q => pad4 q.1 ++ ".jpg") := by
  induction items with
  | nil => intro c; simp [extract_loop]
  | cons it rest ih =>
      intro c
      cases hp : it.payloadOk with
      | false => simp [extract_loop, hp, ih c, List.filter_cons]
      | true =>
          cases hw : it.writeOk with
          | false =>
              simp [extract_loop, hp, hw, ih (c + 1), List.filter_cons,
                List.enumFrom_cons]
              omega
          | true =>
              simp [extract_loop, hp, hw, ih (c + 1), List.filter_cons,
                List.enumFrom_cons]
              omega

/-- The numbering loop on a run with no per-item failures: item `i`
(zero-based) is written as the padded number `i + 1`. -/
theorem extract_loop_all_ok (items : List ExtractItem)
    (h : ∀ it ∈ items, it.payloadOk = true ∧ it.writeOk = true) :
    extract_loop items 0 =
      (items.length, (List.range items.length).map fun i => pad4 (i + 1) ++ ".jpg") := by
  have he := extract_loop_eq items 0
  rw [List.filter_eq_self.mpr fun a ha => (h a ha).1] at he
  rw [List.filter_eq_self.mpr fun q hq => (h q.2 (mem_enumFrom_snd hq)).2] at he
  rw [he, enumFrom_map_fst_comp (fun k => pad4 k ++ ".jpg") items 1]
  rw [List.range'_eq_map_range, List.map_map]
  refine congrArg₂ Prod.mk (by omega) ?_
  exact List.map_congr_left fun i _ => by simp [Nat.add_comm]

/-- The float expression `int(original_height * (target_width /
original_width))` taken in exact arithmetic equals truncating natural
division. -/
theorem resize_target_height_eq (W H T : Nat) :
    resize_target_height W H T = H * T / W := by
  unfold resize_target_height
  rw [← mul_div_assoc]
  have h1 : ((H : ℚ) * T) = ((H * T : Nat) : ℚ) := by push_cast; ring
  rw [h1, Nat.floor_div_nat, Nat.floor_natCast]

/-! ## Claim C1 -/

/-- Claim C1, counterexample: for an original 3×2 image resized to target
width 4, the code produces height `int(2 * 4/3) = 2`, while the claimed
`round(H * T / W) = round(8/3)` is 3. -/
theorem C1_counterexample :
    resize_output_size 3 2 4 = (4, 2)
  ∧ (2 * 4 : ℚ) / 3 = 8 / 3
  ∧ round ((8 : ℚ) / 3) = 3
  ∧ (2 : Nat) ≠ 3 := by
  refine ⟨?_, by norm_num, ?_, by decide⟩
  · unfold resize_output_size
    rw [resize_target_height_eq]
  · rw [round_eq]
    have h1 : (8 : ℚ) / 3 + 1 / 2 = 19 / 6 := by norm_num
    rw [h1, Int.floor_eq_iff]
    norm_num

/-- Claim C1 (amended): for every image with positive original dimensions
W×H processed by the resize tool with positive target width T, the output
image has width exactly T and height `⌊H * T / W⌋` (truncated, not
rounded). -/
theorem C1_resize_dimensions (W H T : Nat) (hW : 0 < W) (hH : 0 < H)
    (hT : 0 < T) :
    resize_output_size W H T = (T, H * T / W) := by
  unfold resize_output_size
  rw [resize_target_height_eq]

/-- Witness for C1: a 2×1 image resized to width 3. -/
theorem C1_witness :
    0 < 2 ∧ 0 < 1 ∧ 0 < 3 ∧ resize_output_size 2 1 3 = (3, 1 * 3 / 2) :=
  ⟨by decide, by decide, by decide,
    C1_resize_dimensions 2 1 3 (by decide) (by decide) (by decide)⟩

/-! ## Claim C2 -/

/-- Every input mode leaves the shared conversion snippet of the convert,
resize and images-to-pdf tools as RGB. -/
theorem normalize_mode_eq_RGB (m : String) : normalize_mode m = "RGB" := by
  unfold normalize_mode
  split_ifs with h1 h2
  · rfl
  · rfl
  · exact not_not.mp h2

/-- Claim C2, counterexample: in the extraction tool's save path a
grayscale ("L") PNG is encoded to JPEG still in mode "L", and a CMYK JPEG
passes through unconverted — other non-RGB modes are not forced to RGB
there. -/
theorem C2_counterexample :
    save_image_as_jpg { format := "PNG", mode := "L", width := 10, height := 10 } =
      SaveAction.encodeJpeg "L"
  ∧ save_image_as_jpg { format := "JPEG", mode := "CMYK", width := 10, height := 10 } =
      SaveAction.passThrough
  ∧ ("L" : String) ≠ "RGB" := by decide

/-- Claim C2 (amended): the convert, resize and images-to-pdf tools always
convert to RGB before encoding; the extraction tool's save path flattens
only RGBA and P to RGB, passes JPEG-format images of any other mode through
as original bytes, and encodes non-JPEG images of any other non-RGB mode in
their original mode. -/
theorem C2_mode_normalization (img : Img) (m : String) :
    normalize_mode m = "RGB"
  ∧ (img.mode = "RGBA" ∨ img.mode = "P" →
      save_image_as_jpg img = SaveAction.encodeJpeg "RGB")
  ∧ (img.format = "JPEG" → ¬(img.mode = "RGBA" ∨ img.mode = "P") →
      save_image_as_jpg img = SaveAction.passThrough)
  ∧ (img.format ≠ "JPEG" → ¬(img.mode = "RGBA" ∨ img.mode = "P") →
      save_image_as_jpg img = SaveAction.encodeJpeg img.mode) := by
  refine ⟨normalize_mode_eq_RGB m, ?_, ?_, ?_⟩
  · intro h
    unfold save_image_as_jpg
    rw [if_neg (by tauto), if_pos h]
  · intro h1 h2
    unfold save_image_as_jpg
    rw [if_pos ⟨h1, h2⟩]
  · intro h1 h2
    unfold save_image_as_jpg
    rw [if_neg (by tauto), if_neg h2]

/-- Witness for C2: mode "L" normalizes to RGB in the three directory
tools, and a CMYK JPEG passes through the extraction save path. -/
theorem C2_witness :
    normalize_mode "L" = "RGB"
  ∧ save_image_as_jpg { format := "JPEG", mode := "CMYK", width := 1, height := 1 } =
      SaveAction.passThrough := by
  have h := C2_mode_normalization
    { format := "JPEG", mode := "CMYK", width := 1, height := 1 } "L"
  exact ⟨h.1, h.2.2.1 rfl (by decide)⟩

/-! ## Claim C5 -/

/-- Claim C5, counterexample: an existing directory whose name carries the
suffix ".pdf" passes every precondition check of the extraction tool — the
tool does not itself abort on a wrong path kind; it proceeds to create the
output folder and invoke the container adapter. -/
theorem C5_counterexample :
    extract_images { existsOnDisk := true, isDir := true, suffix := ".pdf" } =
      ExtractStart.started
  ∧ ExtractStart.started ≠ ExtractStart.fatalExit := by decide

/-- Claim C5 (amended): a missing source path is a fatal pre-item error in
all four tools, and a wrong path kind is a fatal pre-item error in the three
directory tools; the extraction tool's own checks abort on a missing path or
an unsupported suffix, but never inspect the path's kind. -/
theorem C5_precondition_checks (p : PathInfo) (entries : List FileEntry) :
    (p.existsOnDisk = false →
      convert_images_in_directory p entries = RunOutcome.fatalExit
      ∧ resize_images_in_directory p entries = RunOutcome.fatalExit
      ∧ images_to_pdf p entries = RunOutcome.fatalExit
      ∧ extract_images p = ExtractStart.fatalExit)
  ∧ (p.isDir = false →
      convert_images_in_directory p entries = RunOutcome.fatalExit
      ∧ resize_images_in_directory p entries = RunOutcome.fatalExit
      ∧ images_to_pdf p entries = RunOutcome.fatalExit)
  ∧ (¬(pyLower p.suffix = ".pdf" ∨ pyLower p.suffix = ".epub" ∨
        pyLower p.suffix = ".mobi") →
      extract_images p = ExtractStart.fatalExit) := by
  refine ⟨?_, ?_, ?_⟩
  · intro h
    have hd : directory_precheck p = CheckResult.fatalExit := by
      unfold directory_precheck; simp [h]
    have he : extract_precheck p = CheckResult.fatalExit := by
      unfold extract_precheck; simp [h]
    exact ⟨by simp [convert_images_in_directory, hd],
      by simp [resize_images_in_directory, hd],
      by simp [images_to_pdf, hd],
      by simp [extract_images, he]⟩
  · intro h
    have hd : directory_precheck p = CheckResult.fatalExit := by
      unfold directory_precheck; simp [h]
    exact ⟨by simp [convert_images_in_directory, hd],
      by simp [resize_images_in_directory, hd],
      by simp [images_to_pdf, hd]⟩
  · intro h
    have he : extract_precheck p = CheckResult.fatalExit := by
      unfold extract_precheck; simp [h]
    simp [extract_images, he]

/-- Witness for C5: a missing folder aborts the convert tool; a ".txt"
argument aborts the extraction tool. -/
theorem C5_witness :
    convert_images_in_directory { existsOnDisk := false, isDir := false, suffix := "" } [] =
      RunOutcome.fatalExit
  ∧ extract_images { existsOnDisk := true, isDir := true, suffix := ".txt" } =
      ExtractStart.fatalExit :=
  ⟨((C5_precondition_checks ⟨false, false, ""⟩ []).1 rfl).1,
    (C5_precondition_checks ⟨true, true, ".txt"⟩ []).2.2 (by decide)⟩

/-! ## Claim C6 -/

/-- Claim C6: with valid preconditions and zero located images, convert and
resize report "no images found" and return normally (exit status 0), while
images-to-pdf treats the empty result as fatal and exits non-zero without
writing a PDF. -/
theorem C6_empty_locator (p : PathInfo) (entries : List FileEntry)
    (hp : directory_precheck p = CheckResult.proceed)
    (h : locate_images entries = []) :
    convert_images_in_directory p entries = RunOutcome.normalNoImages
  ∧ resize_images_in_directory p entries = RunOutcome.normalNoImages
  ∧ images_to_pdf p entries = RunOutcome.fatalExit := by
  refine ⟨?_, ?_, ?_⟩ <;>
    simp [convert_images_in_directory, resize_images_in_directory, images_to_pdf, hp, h]

/-- Witness for C6: a valid, image-free directory. -/
theorem C6_witness :
    convert_images_in_directory { existsOnDisk := true, isDir := true, suffix := "" } [] =
      RunOutcome.normalNoImages
  ∧ resize_images_in_directory { existsOnDisk := true, isDir := true, suffix := "" } [] =
      RunOutcome.normalNoImages
  ∧ images_to_pdf { existsOnDisk := true, isDir := true, suffix := "" } [] =
      RunOutcome.fatalExit :=
  C6_empty_locator ⟨true, true, ""⟩ [] (by decide) (by decide)

/-! ## Claim C3 -/

/-- Claim C3: extracting N images from a container (PDF, EPUB or MOBI) with
no per-item failures writes exactly the filenames `pad4 1 ++ ".jpg"` through
`pad4 N ++ ".jpg"` (four-digit zero-padded, starting at 1), in order, with
no gaps. -/
theorem C3_sequential_numbering (pdfItems : List ExtractItem)
    (names : List ZipEntry) (outcomeZ : String → ExtractItem)
    (files : List FileEntry) (outcomeM : FileEntry → ExtractItem) (s : MobiFS)
    (hpdf : ∀ it ∈ pdfItems, it.payloadOk = true ∧ it.writeOk = true)
    (hz : ∀ nm : String, (outcomeZ nm).payloadOk = true ∧ (outcomeZ nm).writeOk = true)
    (hm : ∀ g : FileEntry, (outcomeM g).payloadOk = true ∧ (outcomeM g).writeOk = true) :
    extract_images_from_pdf pdfItems =
      (pdfItems.length, (List.range pdfItems.length).map fun i => pad4 (i + 1) ++ ".jpg")
  ∧ extract_images_from_epub names outcomeZ =
      ((epub_image_files names).length,
        (List.range (epub_image_files names).length).map fun i => pad4 (i + 1) ++ ".jpg")
  ∧ (extract_images_from_mobi files outcomeM s).1 =
      Except.ok ((mobi_image_files files).length,
        (List.range (mobi_image_files files).length).map fun i => pad4 (i + 1) ++ ".jpg") := by
  refine ⟨extract_loop_all_ok _ hpdf, ?_, ?_⟩
  · have h := extract_loop_all_ok ((epub_image_files names).map outcomeZ)
      (fun it hit => by
        obtain ⟨nm, _, rfl⟩ := List.mem_map.mp hit
        exact hz nm)
    unfold extract_images_from_epub
    rw [h, List.length_map]
  · have h := extract_loop_all_ok ((mobi_image_files files).map outcomeM)
      (fun it hit => by
        obtain ⟨g, _, rfl⟩ := List.mem_map.mp hit
        exact hm g)
    show Except.ok (extract_loop ((mobi_image_files files).map outcomeM) 0) = _
    rw [h, List.length_map]

/-- Witness for C3: two PDF items, two EPUB entries and one MOBI file, all
succeeding. -/
theorem C3_witness :
    extract_images_from_pdf [⟨true, true⟩, ⟨true, true⟩] =
      (2, (List.range 2).map fun i => pad4 (i + 1) ++ ".jpg")
  ∧ extract_images_from_epub [⟨"im/b.png", ".png"⟩, ⟨"im/a.png", ".png"⟩]
      (fun _ => ⟨true, true⟩) =
      ((epub_image_files [⟨"im/b.png", ".png"⟩, ⟨"im/a.png", ".png"⟩]).length,
        (List.range (epub_image_files [⟨"im/b.png", ".png"⟩, ⟨"im/a.png", ".png"⟩]).length).map
          fun i => pad4 (i + 1) ++ ".jpg")
  ∧ (extract_images_from_mobi [⟨"t/x.jpg", "x.jpg", ".jpg", true, none⟩]
      (fun _ => ⟨true, true⟩) ⟨false⟩).1 =
      Except.ok ((mobi_image_files [⟨"t/x.jpg", "x.jpg", ".jpg", true, none⟩]).length,
        (List.range (mobi_image_files [⟨"t/x.jpg", "x.jpg", ".jpg", true, none⟩]).length).map
          fun i => pad4 (i + 1) ++ ".jpg") :=
  C3_sequential_numbering _ _ _ _ _ _ (by decide) (fun _ => ⟨rfl, rfl⟩) (fun _ => ⟨rfl, rfl⟩)

/-! ## Claim C4 -/

/-- Claim C4: in the sequential extraction loop, every item whose payload is
obtained increments the counter before the write is attempted — the number
an item receives is its one-based rank among the payload-obtained items
whether or not its write succeeds, so an item whose write fails still
consumes its number and leaves a gap (concretely: outcomes ok, write-fail,
ok produce 0001.jpg and 0003.jpg with 0002 missing and a final count of
3). -/
theorem C4_increment_before_write (items : List ExtractItem) :
    extract_loop items 0 =
      ((items.filter fun it => it.payloadOk).length,
        (((items.filter fun it => it.payloadOk).enumFrom 1).filter
          fun q => q.2.writeOk).map fun q => pad4 q.1 ++ ".jpg")
  ∧ extract_loop [⟨true, true⟩, ⟨true, false⟩, ⟨true, true⟩] 0 =
      (3, ["0001.jpg", "0003.jpg"]) := by
  constructor
  · simpa using extract_loop_eq items 0
  · decide

/-! ## Claim C7 -/

/-- Claim C7, counterexample: a JPEG-encoded RGB image stored under the
extension ".png" is re-encoded by the convert tool — the fast path keys on
the filename extension, not on the source format being JPEG. -/
theorem C7_counterexample :
    (convert_image_to_jpg
      { path := "a.png", name := "a.png", suffix := ".png", isFile := true,
        decoded := some { format := "JPEG", mode := "RGB", width := 7, height := 5 } }).1 =
      ConvertAction.reencoded "RGB"
  ∧ ConvertAction.reencoded "RGB" ≠ ConvertAction.skipAlreadyJpg := by decide

/-- Claim C7 (amended): the extraction save path passes JPEG-format,
non-RGBA/P payloads through byte-identical; the convert tool's fast path
keys on the filename extension, so every located file whose suffix is
already ".jpg"/".jpeg" is left untouched, and a second convert run over a
directory all of whose located files carry such suffixes performs zero
re-encodes — but a JPEG-encoded file under another extension is re-encoded
(see the counterexample). -/
theorem C7_fast_path (img : Img) (f : FileEntry) (entries : List FileEntry) :
    (img.format = "JPEG" → ¬(img.mode = "RGBA" ∨ img.mode = "P") →
      save_image_as_jpg img = SaveAction.passThrough)
  ∧ (pyLower f.suffix = ".jpg" ∨ pyLower f.suffix = ".jpeg" →
      convert_image_to_jpg f = (ConvertAction.skipAlreadyJpg, true))
  ∧ ((∀ g ∈ locate_images entries,
        pyLower g.suffix = ".jpg" ∨ pyLower g.suffix = ".jpeg") →
      ∀ a ∈ convert_run_actions entries, a = (ConvertAction.skipAlreadyJpg, true)) := by
  refine ⟨?_, ?_, ?_⟩
  · intro h1 h2
    unfold save_image_as_jpg
    rw [if_pos ⟨h1, h2⟩]
  · rintro (h | h) <;> simp [convert_image_to_jpg, h]
  · intro hall a ha
    unfold convert_run_actions at ha
    obtain ⟨g, hg, rfl⟩ := List.mem_map.mp ha
    have hg2 : g ∈ locate_images entries :=
      (List.perm_insertionSort leByName (locate_images entries)).subset hg
    rcases hall g hg2 with h | h <;> simp [convert_image_to_jpg, h]

/-- Witness for C7: a JPEG/RGB payload passes through the extraction save
path, and a ".jpg"-suffixed file is left untouched by the convert tool. -/
theorem C7_witness :
    save_image_as_jpg { format := "JPEG", mode := "RGB", width := 4, height := 4 } =
      SaveAction.passThrough
  ∧ convert_image_to_jpg
      { path := "d/a.jpg", name := "a.jpg", suffix := ".jpg", isFile := true,
        decoded := none } = (ConvertAction.skipAlreadyJpg, true) :=
  ⟨(C7_fast_path { format := "JPEG", mode := "RGB", width := 4, height := 4 }
      { path := "d/a.jpg", name := "a.jpg", suffix := ".jpg", isFile := true,
        decoded := none } []).1 rfl (by decide),
    (C7_fast_path { format := "JPEG", mode := "RGB", width := 4, height := 4 }
      { path := "d/a.jpg", name := "a.jpg", suffix := ".jpg", isFile := true,
        decoded := none } []).2.1 (by decide)⟩

/-! ## Claim C8 -/

/-- Claim C8: items are processed in a deterministic sorted order — convert
and images-to-pdf by filename, resize by full path string, EPUB extraction
by archive entry name, MOBI extraction by filename; each processed list is a
permutation of the located items, and when the respective keys are pairwise
distinct the order is strict. -/
theorem C8_processing_order (p : PathInfo) (entries : List FileEntry)
    (names : List ZipEntry) (files : List FileEntry) :
    (∀ l, convert_images_in_directory p entries = RunOutcome.processed l →
        l.Pairwise leByName ∧ l.Perm (locate_images entries))
  ∧ (∀ l, images_to_pdf p entries = RunOutcome.processed l →
        l.Pairwise leByName ∧ l.Perm (locate_images entries))
  ∧ (∀ l, resize_images_in_directory p entries = RunOutcome.processed l →
        l.Pairwise leByPath ∧ l.Perm (locate_images entries))
  ∧ (epub_image_files names).Pairwise pyStrLe
  ∧ (epub_image_files names).Perm
      ((names.filter fun e => IMAGE_EXTENSIONS.contains (pyLower e.suffix)).map
        ZipEntry.name)
  ∧ (mobi_image_files files).Pairwise leByName
  ∧ (mobi_image_files files).Perm
      (files.filter fun g => IMAGE_EXTENSIONS.contains g.suffix)
  ∧ ((locate_images entries).Pairwise (fun a b => a.name ≠ b.name) →
      ∀ l, convert_images_in_directory p entries = RunOutcome.processed l →
        l.Pairwise fun a b => leByName a b ∧ a.name ≠ b.name)
  ∧ ((locate_images entries).Pairwise (fun a b => a.path ≠ b.path) →
      ∀ l, resize_images_in_directory p entries = RunOutcome.processed l →
        l.Pairwise fun a b => leByPath a b ∧ a.path ≠ b.path) := by
  have hc : ∀ l, convert_images_in_directory p entries = RunOutcome.processed l →
      l.Pairwise leByName ∧ l.Perm (locate_images entries) := by
    intro l hl
    rw [convert_processed_eq hl]
    exact ⟨sorted_insertionSort_leByName _, List.perm_insertionSort _ _⟩
  have hr : ∀ l, resize_images_in_directory p entries = RunOutcome.processed l →
      l.Pairwise leByPath ∧ l.Perm (locate_images entries) := by
    intro l hl
    rw [resize_processed_eq hl]
    exact ⟨sorted_insertionSort_leByPath _, List.perm_insertionSort _ _⟩
  refine ⟨hc, ?_, hr, ?_, ?_, ?_, ?_, ?_, ?_⟩
  · intro l hl
    rw [images_to_pdf_processed_eq hl]
    exact ⟨sorted_insertionSort_leByName _, List.perm_insertionSort _ _⟩
  · exact sorted_insertionSort_pyStrLe _
  · exact List.perm_insertionSort _ _
  · exact sorted_insertionSort_leByName _
  · exact List.perm_insertionSort _ _
  · intro hd l hl
    exact pairwise_strict_of_distinct FileEntry.name (hc l hl).1 (hc l hl).2 hd
  · intro hd l hl
    exact pairwise_strict_of_distinct FileEntry.path (hr l hl).1 (hr l hl).2 hd

/-- Witness for C8: a two-file directory; the convert tool processes the
".jpg"-named file before the ".png"-named one. -/
theorem C8_witness :
    ([{ path := "d/a.jpg", name := "a.jpg", suffix := ".jpg", isFile := true,
        decoded := none },
      { path := "d/b.png", name := "b.png", suffix := ".png", isFile := true,
        decoded := none }] : List FileEntry).Pairwise leByName
  ∧ ([{ path := "d/a.jpg", name := "a.jpg", suffix := ".jpg", isFile := true,
        decoded := none },
      { path := "d/b.png", name := "b.png", suffix := ".png", isFile := true,
        decoded := none }] : List FileEntry).Perm
      (locate_images
        [{ path := "d/b.png", name := "b.png", suffix := ".png", isFile := true,
           decoded := none },
         { path := "d/a.jpg", name := "a.jpg", suffix := ".jpg", isFile := true,
           decoded := none }]) :=
  (C8_processing_order { existsOnDisk := true, isDir := true, suffix := "" }
      [{ path := "d/b.png", name := "b.png", suffix := ".png", isFile := true,
         decoded := none },
       { path := "d/a.jpg", name := "a.jpg", suffix := ".jpg", isFile := true,
         decoded := none }] [] []).1 _ (by decide)

/-! ## Claim C9 -/

/-- Claim C9: the MOBI adapter's try/finally removes the temporary unpack
directory on every exit path — whatever the body does to the state, and
whether it finishes normally or raises, the final state has the directory
removed and the body's outcome (value or error) is propagated unchanged; in
particular the concrete adapter ends with the directory removed. -/
theorem C9_tempdir_cleanup {α : Type}
    (body : MobiFS → Except String α × MobiFS) (s : MobiFS)
    (files : List FileEntry) (outcome : FileEntry → ExtractItem) :
    (mobi_try_finally body s).2.tempdirRemoved = true
  ∧ (mobi_try_finally body s).1 = (body s).1
  ∧ (extract_images_from_mobi files outcome s).2.tempdirRemoved = true :=
  ⟨rfl, rfl, rfl⟩

/-! ## Claim C10 -/

/-- Claim C10: the convert tool decides its fast path by filename extension
alone — every file whose lower-cased suffix is ".jpg" or ".jpeg" is counted
as converted (returns true) and left untouched without being decoded, and
the result is the same whatever the decode outcome, including a corrupt or
mislabelled file (decode result `none`). -/
theorem C10_extension_fast_path (f : FileEntry)
    (h : pyLower f.suffix = ".jpg" ∨ pyLower f.suffix = ".jpeg") :
    convert_image_to_jpg f = (ConvertAction.skipAlreadyJpg, true)
  ∧ ∀ d : Option Img,
      convert_image_to_jpg { f with decoded := d } =
        (ConvertAction.skipAlreadyJpg, true) := by
  constructor
  · rcases h with h | h <;> simp [convert_image_to_jpg, h]
  · intro d
    rcases h with h | h <;> simp [convert_image_to_jpg, h]

/-- Witness for C10: a corrupt file under the upper-cased suffix ".JPG" is
still counted as converted without being decoded. -/
theorem C10_witness :
    convert_image_to_jpg
      { path := "x.JPG", name := "x.JPG", suffix := ".JPG", isFile := true,
        decoded := none } = (ConvertAction.skipAlreadyJpg, true) :=
  (C10_extension_fast_path
    { path := "x.JPG", name := "x.JPG", suffix := ".JPG", isFile := true,
      decoded := none } (by decide)).1
